import Mathlib

/-!
Verification of the na_dbbackup repository's replication and clone
orchestration scripts.  The Python functions are embedded shallowly: each
controller interaction (GET, PATCH, POST) is recorded in a request trace,
and the observations the controller returns on each poll are supplied by
an environment structure, so that the scripts become pure functions from
environments to results and traces.
-/

namespace NaDbbackup

/-- A controller-side request issued by the snapmirror scripts. -/
inductive Req where
  | getRelationships : Req
  | getRelState : String → Req
  | patchState : String → String → Req
  | postTransfer : String → Req
  | getJob : String → Req
deriving DecidableEq, Repr

/-- One record of the snapmirror relationship collection, as the scripts
read it (uuid plus the state field requested by v2's break lookup). -/
structure RelRecord where
  uuid : String
  state : String
deriving DecidableEq, Repr

/-- First index at or after `i`, within `budget` further probes, at which
the observation satisfies `p`.  Models one pass of a bounded poll loop. -/
def firstHit {α : Type} (obs : Nat → α) (p : α → Bool) : Nat → Nat → Option Nat
  | _, 0 => none
  | i, Nat.succ b => if p (obs i) then some i else firstHit obs p (i + 1) b

theorem firstHit_some {α : Type} (obs : Nat → α) (p : α → Bool) :
    ∀ b i k, firstHit obs p i b = some k → i ≤ k ∧ k < i + b ∧ p (obs k) = true := by
  intro b
  induction b with
  | zero => intro i k h; simp [firstHit] at h
  | succ b ih =>
    intro i k h
    rw [firstHit] at h
    by_cases hp : p (obs i) = true
    · rw [if_pos hp] at h
      cases h
      exact ⟨Nat.le_refl _, by omega, hp⟩
    · rw [if_neg hp] at h
      obtain ⟨h1, h2, h3⟩ := ih (i + 1) k h
      exact ⟨by omega, by omega, h3⟩

theorem firstHit_none {α : Type} (obs : Nat → α) (p : α → Bool) :
    ∀ b i, firstHit obs p i b = none → ∀ k, i ≤ k → k < i + b → p (obs k) = false := by
  intro b
  induction b with
  | zero => intro i _ k h1 h2; omega
  | succ b ih =>
    intro i h k h1 h2
    rw [firstHit] at h
    by_cases hp : p (obs i) = true
    · rw [if_pos hp] at h; cases h
    · rw [if_neg hp] at h
      rcases Nat.eq_or_lt_of_le h1 with rfl | hlt
      · exact Bool.eq_false_iff.mpr hp
      · exact ih (i + 1) h k hlt (by omega)

theorem firstHit_of_first {α : Type} (obs : Nat → α) (p : α → Bool) :
    ∀ b i k, i ≤ k → k < i + b → p (obs k) = true →
      (∀ j, i ≤ j → j < k → p (obs j) = false) →
      firstHit obs p i b = some k := by
  intro b
  induction b with
  | zero => intro i k h1 h2; omega
  | succ b ih =>
    intro i k h1 h2 hk hmin
    rw [firstHit]
    rcases Nat.eq_or_lt_of_le h1 with rfl | hlt
    · rw [if_pos hk]
    · rw [if_neg (by simp [hmin i (Nat.le_refl i) hlt])]
      exact ih (i + 1) k hlt (by omega) hk fun j h1 h2 => hmin j (by omega) h2

theorem firstHit_eq_none_of {α : Type} (obs : Nat → α) (p : α → Bool) :
    ∀ b i, (∀ k, i ≤ k → k < i + b → p (obs k) = false) →
      firstHit obs p i b = none := by
  intro b
  induction b with
  | zero => intro i _; simp [firstHit]
  | succ b ih =>
    intro i h
    rw [firstHit, if_neg (by simp [h i (Nat.le_refl i) (by omega)])]
    exact ih (i + 1) fun k h1 h2 => h k (by omega) (by omega)

/-- Terminal job states recognised by the scripts' job-monitoring loops. -/
def jobTerminal (s : String) : Bool := s == "success" || s == "failure"

/-- Number of polls a bounded loop performs: it stops on the first poll
whose observation satisfies `p`, and otherwise uses its whole budget. -/
def pollCount (obs : Nat → String) (p : String → Bool) (budget : Nat) : Nat :=
  match firstHit obs p 0 budget with
  | some k => k + 1
  | none => budget

/-- The value of the `job_state` variable when a job-monitoring loop
exits: the first terminal observation, or the last observation polled. -/
def jobFinal (obs : Nat → String) (budget : Nat) : String :=
  match firstHit obs jobTerminal 0 budget with
  | some k => obs k
  | none => obs (budget - 1)

/-- The job-monitoring section shared by v2's quiesce and break: polls the
job at most 24 times and reports the last observed job state. -/
def watch_job (obs : Nat → String) (j : String) : String × List Req :=
  (jobFinal obs 24, List.replicate (pollCount obs jobTerminal 24) (Req.getJob j))

/-- The state-verification loops of na_dbbackup_v2: poll the relationship
state at most 24 times, succeeding as soon as `target` is observed. -/
def verify_state (obs : Nat → String) (target : String) (uuid : String) :
    Bool × List Req :=
  match firstHit obs (fun s => s == target) 0 24 with
  | some k => (true, List.replicate (k + 1) (Req.getRelState uuid))
  | none => (false, List.replicate 24 (Req.getRelState uuid))

theorem verify_state_true (obs : Nat → String) (target uuid : String)
    (h : (verify_state obs target uuid).1 = true) :
    ∃ k, k < 24 ∧ obs k = target := by
  unfold verify_state at h
  rcases hf : firstHit obs (fun s => s == target) 0 24 with _ | k
  · rw [hf] at h; simp at h
  · rw [hf] at h
    obtain ⟨_, h2, h3⟩ := firstHit_some obs _ 24 0 k hf
    exact ⟨k, by omega, by simpa using h3⟩

theorem verify_state_false (obs : Nat → String) (target uuid : String)
    (h : ∀ k, k < 24 → obs k ≠ target) :
    (verify_state obs target uuid).1 = false := by
  unfold verify_state
  rw [firstHit_eq_none_of obs _ 24 0 (by intro k _ hk; simpa using h k (by omega))]

/-- Environment for na_dbbackup_v2's break path: the relationship lookup
result and the controller's responses to the quiesce and break requests
and to each subsequent poll. -/
structure BreakEnv where
  records : List RelRecord
  quiescePatchOk : Bool
  quiesceJob : Option String
  quiesceJobStates : Nat → String
  quiesceRelStates : Nat → String
  breakPatchOk : Bool
  breakJob : Option String
  breakJobStates : Nat → String
  breakRelStates : Nat → String

/-- The optional job-monitoring step after a state-changing PATCH: when a
job uuid was returned, poll it (at most 24 times) and report whether the
loop exited with job state failure, together with the polling trace. -/
def job_section (job : Option String) (obs : Nat → String) : Bool × List Req :=
  match job with
  | none => (false, [])
  | some j => (jobFinal obs 24 == "failure", (watch_job obs j).2)

/-- na_dbbackup_v2.quiesce_snapmirror: PATCH state=quiesced, monitor the
returned job if any, then poll until the relationship reads quiesced. -/
def quiesce_snapmirror_v2 (env : BreakEnv) (uuid : String) : Bool × List Req :=
  if env.quiescePatchOk then
    let js := job_section env.quiesceJob env.quiesceJobStates
    if js.1 then (false, Req.patchState uuid "quiesced" :: js.2)
    else
      let v := verify_state env.quiesceRelStates "quiesced" uuid
      (v.1, Req.patchState uuid "quiesced" :: (js.2 ++ v.2))
  else (false, [Req.patchState uuid "quiesced"])

/-- na_dbbackup_v2.break_snapmirror: look up the relationship, require
state snapmirrored or quiesced, quiesce first when needed, PATCH
state=broken_off, monitor the job, then poll until broken_off is read. -/
def break_snapmirror_v2 (env : BreakEnv) : Bool × List Req :=
  match env.records with
  | [] => (false, [Req.getRelationships])
  | r :: _ =>
    if r.state != "quiesced" && r.state != "snapmirrored" then
      (false, [Req.getRelationships])
    else
      let q : Bool × List Req :=
        if r.state != "quiesced" then quiesce_snapmirror_v2 env r.uuid
        else (true, [])
      if q.1 then
        if env.breakPatchOk then
          let js := job_section env.breakJob env.breakJobStates
          if js.1 then
            (false,
              Req.getRelationships :: (q.2 ++ Req.patchState r.uuid "broken_off" :: js.2))
          else
            let v := verify_state env.breakRelStates "broken_off" r.uuid
            (v.1, Req.getRelationships ::
              (q.2 ++ Req.patchState r.uuid "broken_off" :: (js.2 ++ v.2)))
        else
          (false, Req.getRelationships :: (q.2 ++ [Req.patchState r.uuid "broken_off"]))
      else (false, Req.getRelationships :: q.2)

/-- Environment for na_dbbackup_v1's break path.  v1 requests only the
uuid; `relStates` records what a state re-read would have observed. -/
structure BreakEnvV1 where
  records : List RelRecord
  patchOk : Bool
  relStates : Nat → String

/-- na_dbbackup_v1.break_snapmirror: look up the relationship uuid, PATCH
state=broken_off, and report success as soon as the PATCH is accepted,
with no state verification at all. -/
def break_snapmirror_v1 (env : BreakEnvV1) : Bool × List Req :=
  match env.records with
  | [] => (false, [Req.getRelationships])
  | r :: _ =>
    if env.patchOk then (true, [Req.getRelationships, Req.patchState r.uuid "broken_off"])
    else (false, [Req.getRelationships, Req.patchState r.uuid "broken_off"])

theorem verify_state_mem (obs : Nat → String) (t u : String) (q : Req)
    (h : q ∈ (verify_state obs t u).2) : q = Req.getRelState u := by
  unfold verify_state at h
  rcases hf : firstHit obs (fun s => s == t) 0 24 with _ | k <;> rw [hf] at h <;>
    exact List.eq_of_mem_replicate h

theorem watch_job_mem (obs : Nat → String) (j : String) (q : Req)
    (h : q ∈ (watch_job obs j).2) : q = Req.getJob j :=
  List.eq_of_mem_replicate h

theorem job_section_mem (job : Option String) (obs : Nat → String) (q : Req)
    (h : q ∈ (job_section job obs).2) : ∃ j, q = Req.getJob j := by
  unfold job_section at h
  rcases job with _ | j
  · simp at h
  · exact ⟨j, watch_job_mem _ _ _ h⟩

theorem quiesce_v2_trace_shape (env : BreakEnv) (u : String) :
    ∀ q ∈ (quiesce_snapmirror_v2 env u).2,
      q = Req.patchState u "quiesced" ∨ (∃ j, q = Req.getJob j) ∨ q = Req.getRelState u := by
  intro q hq
  unfold quiesce_snapmirror_v2 at hq
  by_cases hp : env.quiescePatchOk = true
  · rw [if_pos hp] at hq
    dsimp only at hq
    by_cases hf : (job_section env.quiesceJob env.quiesceJobStates).1 = true
    · rw [if_pos hf] at hq
      rcases List.mem_cons.mp hq with h1 | h1
      · exact Or.inl h1
      · exact Or.inr (Or.inl (job_section_mem _ _ _ h1))
    · rw [if_neg hf] at hq
      rcases List.mem_cons.mp hq with h1 | h1
      · exact Or.inl h1
      · rcases List.mem_append.mp h1 with h2 | h2
        · exact Or.inr (Or.inl (job_section_mem _ _ _ h2))
        · exact Or.inr (Or.inr (verify_state_mem _ _ _ _ h2))
  · rw [if_neg hp] at hq
    simp only [List.mem_cons, List.not_mem_nil, or_false] at hq
    exact Or.inl hq

theorem quiesce_v2_success (env : BreakEnv) (u : String)
    (h : (quiesce_snapmirror_v2 env u).1 = true) :
    (∃ tl, (quiesce_snapmirror_v2 env u).2 = Req.patchState u "quiesced" :: tl)
    ∧ ∃ k, k < 24 ∧ env.quiesceRelStates k = "quiesced" := by
  unfold quiesce_snapmirror_v2 at h ⊢
  by_cases hp : env.quiescePatchOk = true
  · rw [if_pos hp] at h ⊢
    dsimp only at h ⊢
    by_cases hf : (job_section env.quiesceJob env.quiesceJobStates).1 = true
    · rw [if_pos hf] at h; simp at h
    · rw [if_neg hf] at h ⊢
      exact ⟨⟨_, rfl⟩, verify_state_true _ _ _ h⟩
  · rw [if_neg hp] at h; simp at h

/-- A controller behaviour on which v2's break path succeeds: relationship
found in state snapmirrored, quiesce and break PATCHes accepted with no
job returned, and every post-PATCH poll observing the requested state. -/
def breakEnvOk : BreakEnv :=
  { records := [{ uuid := "u1", state := "snapmirrored" }]
    quiescePatchOk := true
    quiesceJob := none
    quiesceJobStates := fun _ => "running"
    quiesceRelStates := fun _ => "quiesced"
    breakPatchOk := true
    breakJob := none
    breakJobStates := fun _ => "running"
    breakRelStates := fun _ => "broken_off" }

/-- Same controller behaviour except that the relationship state observed
after the break PATCH never reaches broken_off. -/
def breakEnvStuck : BreakEnv :=
  { breakEnvOk with breakRelStates := fun _ => "snapmirrored" }

/-- Controller behaviour reporting the relationship mid-transfer. -/
def breakEnvBusy : BreakEnv :=
  { breakEnvOk with records := [{ uuid := "u1", state := "transferring" }] }

/-- Controller behaviour for the v1 break: PATCH accepted, but the
relationship state never becomes broken_off. -/
def breakEnvV1Stuck : BreakEnvV1 :=
  { records := [{ uuid := "u1", state := "snapmirrored" }]
    patchOk := true
    relStates := fun _ => "snapmirrored" }

/-- C1, counterexample: the claim quantifies over every invocation of
break_, but na_dbbackup_v1's break_snapmirror reports success as soon as
the PATCH is accepted, on a controller whose relationship state never
equals broken_off, and it issues no state re-read at all. -/
theorem break_v1_success_without_verification :
    (break_snapmirror_v1 breakEnvV1Stuck).1 = true
    ∧ (∀ k, breakEnvV1Stuck.relStates k ≠ "broken_off")
    ∧ ∀ u, Req.getRelState u ∉ (break_snapmirror_v1 breakEnvV1Stuck).2 := by
  refine ⟨rfl, fun k => (by decide : ("snapmirrored" : String) ≠ "broken_off"),
    fun u hmem => ?_⟩
  have htr : (break_snapmirror_v1 breakEnvV1Stuck).2 =
      [Req.getRelationships, Req.patchState "u1" "broken_off"] := rfl
  rw [htr] at hmem
  rcases List.mem_cons.mp hmem with h | h
  · exact Req.noConfusion h
  · rcases List.mem_cons.mp h with h | h
    · exact Req.noConfusion h
    · simp at h

/-- C1 (amended to na_dbbackup_v2, the variant with post-break
verification): v2's break_snapmirror reports success only if some re-read
within the 24-poll budget observed broken_off, and when the observed state
never reaches broken_off within the budget it reports failure. -/
theorem break_v2_success_iff_broken_off_observed (env : BreakEnv) :
    ((break_snapmirror_v2 env).1 = true →
      ∃ k, k < 24 ∧ env.breakRelStates k = "broken_off")
    ∧ ((∀ k, k < 24 → env.breakRelStates k ≠ "broken_off") →
      (break_snapmirror_v2 env).1 = false) := by
  have main : (break_snapmirror_v2 env).1 = true →
      ∃ k, k < 24 ∧ env.breakRelStates k = "broken_off" := by
    intro h
    unfold break_snapmirror_v2 at h
    rcases henv : env.records with _ | ⟨r, rs⟩
    · rw [henv] at h; simp at h
    · rw [henv] at h
      dsimp only at h
      repeat' split at h
      all_goals first
        | exact verify_state_true _ _ _ h
        | simp at h
  refine ⟨main, fun hnone => ?_⟩
  rcases hb : (break_snapmirror_v2 env).1 with _ | _
  · rfl
  · obtain ⟨k, hk, ho⟩ := main hb
    exact absurd ho (hnone k hk)

/-- C1, witness: on `breakEnvOk` the v2 break succeeds and some poll
observed broken_off; on `breakEnvStuck` no poll ever observes broken_off
and the v2 break reports failure. -/
theorem break_v2_success_iff_broken_off_observed_witness :
    (∃ k, k < 24 ∧ breakEnvOk.breakRelStates k = "broken_off")
    ∧ (break_snapmirror_v2 breakEnvStuck).1 = false :=
  ⟨(break_v2_success_iff_broken_off_observed breakEnvOk).1 (by decide),
   (break_v2_success_iff_broken_off_observed breakEnvStuck).2
     (fun k _ => (by decide : ("snapmirrored" : String) ≠ "broken_off"))⟩

/-- C2: when the v2 break finds the relationship in a state that is
neither snapmirrored nor quiesced, it reports failure and issues no
state-changing PATCH request at all (in particular no PATCH to
broken_off). -/
theorem break_v2_precondition_failed (env : BreakEnv) (r : RelRecord)
    (rest : List RelRecord) (hrec : env.records = r :: rest)
    (h1 : r.state ≠ "snapmirrored") (h2 : r.state ≠ "quiesced") :
    (break_snapmirror_v2 env).1 = false
    ∧ ∀ u s, Req.patchState u s ∉ (break_snapmirror_v2 env).2 := by
  have hc : (r.state != "quiesced" && r.state != "snapmirrored") = true := by
    simp only [Bool.and_eq_true, bne_iff_ne]
    exact ⟨h2, h1⟩
  unfold break_snapmirror_v2
  rw [hrec]
  dsimp only
  rw [if_pos hc]
  refine ⟨rfl, fun u s hmem => ?_⟩
  rcases List.mem_cons.mp hmem with h | h
  · exact Req.noConfusion h
  · simp at h

/-- C2, witness: a relationship observed mid-transfer makes the v2 break
fail with no PATCH issued. -/
theorem break_v2_precondition_failed_witness :
    (break_snapmirror_v2 breakEnvBusy).1 = false
    ∧ ∀ u s, Req.patchState u s ∉ (break_snapmirror_v2 breakEnvBusy).2 :=
  break_v2_precondition_failed breakEnvBusy
    { uuid := "u1", state := "transferring" } [] rfl (by decide) (by decide)

/-- C3, counterexample: the claim quantifies over every break_ request,
but na_dbbackup_v1's break_snapmirror, on a relationship in state
snapmirrored, issues the PATCH to broken_off with no quiesce request ever
issued before it. -/
theorem break_v1_no_quiesce_before_break :
    breakEnvV1Stuck.records = [{ uuid := "u1", state := "snapmirrored" }]
    ∧ Req.patchState "u1" "broken_off" ∈ (break_snapmirror_v1 breakEnvV1Stuck).2
    ∧ ∀ u, Req.patchState u "quiesced" ∉ (break_snapmirror_v1 breakEnvV1Stuck).2 := by
  refine ⟨rfl, by decide, fun u hmem => ?_⟩
  have htr : (break_snapmirror_v1 breakEnvV1Stuck).2 =
      [Req.getRelationships, Req.patchState "u1" "broken_off"] := rfl
  rw [htr] at hmem
  rcases List.mem_cons.mp hmem with h | h
  · exact Req.noConfusion h
  · rcases List.mem_cons.mp h with h | h
    · injection h with ha hb
      exact absurd hb (by decide)
    · simp at h

/-- C3 (amended to na_dbbackup_v2, the variant that quiesces first): when
the v2 break finds the relationship in state snapmirrored and the PATCH to
broken_off appears in its request trace, a PATCH to quiesced precedes it
in the trace and some poll confirmed the quiesced state. -/
theorem break_v2_quiesce_before_break (env : BreakEnv) (r : RelRecord)
    (rest : List RelRecord) (hrec : env.records = r :: rest)
    (hs : r.state = "snapmirrored")
    (hmem : Req.patchState r.uuid "broken_off" ∈ (break_snapmirror_v2 env).2) :
    (∃ pre post,
        (break_snapmirror_v2 env).2 = pre ++ Req.patchState r.uuid "broken_off" :: post
        ∧ Req.patchState r.uuid "quiesced" ∈ pre)
    ∧ ∃ k, k < 24 ∧ env.quiesceRelStates k = "quiesced" := by
  have hc : ¬ ((r.state != "quiesced" && r.state != "snapmirrored") = true) := by
    rw [hs]; decide
  have hqc : (r.state != "quiesced") = true := by rw [hs]; decide
  unfold break_snapmirror_v2 at hmem ⊢
  rw [hrec] at hmem ⊢
  dsimp only at hmem ⊢
  rw [if_neg hc, if_pos hqc] at hmem ⊢
  by_cases hqq : (quiesce_snapmirror_v2 env r.uuid).1 = true
  · obtain ⟨⟨tl, htl⟩, hkq⟩ := quiesce_v2_success env r.uuid hqq
    rw [if_pos hqq] at hmem ⊢
    by_cases hb : env.breakPatchOk = true
    · rw [if_pos hb] at hmem ⊢
      by_cases hj : (job_section env.breakJob env.breakJobStates).1 = true
      · rw [if_pos hj] at hmem ⊢
        refine ⟨⟨Req.getRelationships :: (quiesce_snapmirror_v2 env r.uuid).2,
          (job_section env.breakJob env.breakJobStates).2,
          by rw [List.cons_append], ?_⟩, hkq⟩
        rw [htl]
        exact List.mem_cons_of_mem _ (List.mem_cons_self _ _)
      · rw [if_neg hj] at hmem ⊢
        refine ⟨⟨Req.getRelationships :: (quiesce_snapmirror_v2 env r.uuid).2,
          (job_section env.breakJob env.breakJobStates).2 ++
            (verify_state env.breakRelStates "broken_off" r.uuid).2,
          by rw [List.cons_append], ?_⟩, hkq⟩
        rw [htl]
        exact List.mem_cons_of_mem _ (List.mem_cons_self _ _)
    · rw [if_neg hb] at hmem ⊢
      refine ⟨⟨Req.getRelationships :: (quiesce_snapmirror_v2 env r.uuid).2, [],
        by rw [List.cons_append], ?_⟩, hkq⟩
      rw [htl]
      exact List.mem_cons_of_mem _ (List.mem_cons_self _ _)
  · rw [if_neg hqq] at hmem
    exfalso
    rcases List.mem_cons.mp hmem with h | h
    · exact Req.noConfusion h
    · rcases quiesce_v2_trace_shape env r.uuid _ h with h2 | ⟨j, h2⟩ | h2
      · injection h2 with ha hb
        exact absurd hb (by decide)
      · exact Req.noConfusion h2
      · exact Req.noConfusion h2

/-- C3, witness: on `breakEnvOk` (relationship in snapmirrored, quiesce
confirmed, break confirmed) the break PATCH is present in the trace, a
quiesce PATCH precedes it, and a poll observed quiesced. -/
theorem break_v2_quiesce_before_break_witness :
    (∃ pre post,
        (break_snapmirror_v2 breakEnvOk).2 = pre ++ Req.patchState "u1" "broken_off" :: post
        ∧ Req.patchState "u1" "quiesced" ∈ pre)
    ∧ ∃ k, k < 24 ∧ breakEnvOk.quiesceRelStates k = "quiesced" :=
  break_v2_quiesce_before_break breakEnvOk
    { uuid := "u1", state := "snapmirrored" } [] rfl rfl (by decide)

/-- The exit condition of na_dbbackup_v2.update_snapmirror's polling
loop: relationship state snapmirrored with the transfer state in
none/success/failed. -/
def stableStatus (st : String × String) : Bool :=
  st.1 == "snapmirrored" && (st.2 == "none" || st.2 == "success" || st.2 == "failed")

/-- The attempt budget of the v2 polling loops (the literal 24 in the
source). -/
def update_max_attempts : Nat := 24

/-- The sleep between polls in the v2 polling loops (the literal 5 in the
source, in seconds). -/
def update_poll_interval : Nat := 5

/-- Failure message when the relationship lookup returns no record. -/
def update_not_found_msg : String := "SnapMirror relationship not found"

/-- Failure message raised when the update never stabilises within the
polling budget. -/
def update_timeout_msg : String :=
  "SnapMirror update did not stabilize to snapmirrored within 120 seconds"

/-- Environment for na_dbbackup_v2.update_snapmirror: the relationship
lookup result, the transfer POST outcome, and the (state, transfer state)
pair observed on each poll. -/
structure UpdateEnv where
  records : List RelRecord
  postOk : Bool
  postErrMsg : String
  statusSeq : Nat → String × String

/-- na_dbbackup_v2.update_snapmirror: look up the relationship uuid, POST
a transfer unconditionally, then poll (at most 24 times, 5 seconds apart)
until the status is stable, raising a timeout otherwise. -/
def update_snapmirror_v2 (env : UpdateEnv) : Bool × String × List Req :=
  match env.records with
  | [] => (false, update_not_found_msg, [Req.getRelationships])
  | r :: _ =>
    if env.postOk then
      match firstHit env.statusSeq stableStatus 0 update_max_attempts with
      | some k => (true, "", Req.getRelationships :: Req.postTransfer r.uuid ::
          List.replicate (k + 1) (Req.getRelState r.uuid))
      | none => (false, update_timeout_msg,
          Req.getRelationships :: Req.postTransfer r.uuid ::
            List.replicate update_max_attempts (Req.getRelState r.uuid))
    else (false, env.postErrMsg, [Req.getRelationships, Req.postTransfer r.uuid])

/-- The complete CLI option surface of na_dbbackup_v2 (parse_arguments):
the only configuration the script accepts. -/
def parse_arguments_option_names : List String :=
  ["--host", "--username", "--password", "--svm-name", "--source-volume",
    "--device-path", "--mount-point", "--verify-ssl"]

/-- C4, counterexample: the claim says the poll interval and attempt
budget are supplied as configuration rather than hard-coded constants,
but the values 24 and 5 are literals inside each loop and the script's
only configuration surface (its CLI options) offers no option for either
of them. -/
theorem update_constants_hard_coded :
    update_max_attempts = 24 ∧ update_poll_interval = 5
    ∧ "--interval" ∉ parse_arguments_option_names
    ∧ "--poll-interval" ∉ parse_arguments_option_names
    ∧ "--max-attempts" ∉ parse_arguments_option_names := by
  refine ⟨rfl, rfl, by decide, by decide, by decide⟩

/-- C4 (amended): the v2 update polling loop stops on exactly the first
stable poll (k+1 polls when the first stable observation is poll k), and
when no poll is stable it performs exactly 24 polls and raises the
distinct timeout message; the budget 24 and interval 5 are the hard-coded
constants of the loop, not configuration. -/
theorem update_v2_poll_discipline (env : UpdateEnv) (r : RelRecord)
    (rest : List RelRecord) (hrec : env.records = r :: rest)
    (hpost : env.postOk = true) :
    (∀ k, k < update_max_attempts → stableStatus (env.statusSeq k) = true →
      (∀ j, j < k → stableStatus (env.statusSeq j) = false) →
      (update_snapmirror_v2 env).1 = true
      ∧ (update_snapmirror_v2 env).2.2 =
          Req.getRelationships :: Req.postTransfer r.uuid ::
            List.replicate (k + 1) (Req.getRelState r.uuid))
    ∧ ((∀ k, k < update_max_attempts → stableStatus (env.statusSeq k) = false) →
      (update_snapmirror_v2 env).1 = false
      ∧ (update_snapmirror_v2 env).2.1 = update_timeout_msg
      ∧ (update_snapmirror_v2 env).2.2 =
          Req.getRelationships :: Req.postTransfer r.uuid ::
            List.replicate update_max_attempts (Req.getRelState r.uuid))
    ∧ update_timeout_msg ≠ update_not_found_msg
    ∧ update_max_attempts = 24 ∧ update_poll_interval = 5 := by
  refine ⟨?_, ?_, by decide, rfl, rfl⟩
  · intro k hk hst hmin
    have hfh : firstHit env.statusSeq stableStatus 0 update_max_attempts = some k :=
      firstHit_of_first _ _ update_max_attempts 0 k (Nat.zero_le _) (by omega) hst
        (fun j _ hj => hmin j hj)
    unfold update_snapmirror_v2
    rw [hrec]
    dsimp only
    rw [if_pos hpost, hfh]
    exact ⟨rfl, rfl⟩
  · intro hnone
    have hfh : firstHit env.statusSeq stableStatus 0 update_max_attempts = none :=
      firstHit_eq_none_of _ _ update_max_attempts 0 (fun k _ h2 => hnone k (by omega))
    unfold update_snapmirror_v2
    rw [hrec]
    dsimp only
    rw [if_pos hpost, hfh]
    exact ⟨rfl, rfl, rfl⟩

/-- Controller behaviour on which the very first update poll is stable. -/
def updateEnvQuick : UpdateEnv :=
  { records := [{ uuid := "u1", state := "snapmirrored" }]
    postOk := true
    postErrMsg := ""
    statusSeq := fun _ => ("snapmirrored", "success") }

/-- Controller behaviour on which no update poll is ever stable. -/
def updateEnvStuck : UpdateEnv :=
  { updateEnvQuick with statusSeq := fun _ => ("snapmirrored", "transferring") }

/-- C4, witness: a first-poll-stable controller gives success after one
poll; a never-stable controller gives failure with the timeout message
after exactly 24 polls. -/
theorem update_v2_poll_discipline_witness :
    ((update_snapmirror_v2 updateEnvQuick).1 = true
      ∧ (update_snapmirror_v2 updateEnvQuick).2.2 =
          Req.getRelationships :: Req.postTransfer "u1" ::
            List.replicate 1 (Req.getRelState "u1"))
    ∧ ((update_snapmirror_v2 updateEnvStuck).1 = false
      ∧ (update_snapmirror_v2 updateEnvStuck).2.1 = update_timeout_msg
      ∧ (update_snapmirror_v2 updateEnvStuck).2.2 =
          Req.getRelationships :: Req.postTransfer "u1" ::
            List.replicate update_max_attempts (Req.getRelState "u1")) :=
  ⟨(update_v2_poll_discipline updateEnvQuick
      { uuid := "u1", state := "snapmirrored" } [] rfl rfl).1 0 (by decide)
      (by decide) (fun j hj => absurd hj (Nat.not_lt_zero j)),
   (update_v2_poll_discipline updateEnvStuck
      { uuid := "u1", state := "snapmirrored" } [] rfl rfl).2.1
      (fun k _ =>
        (by decide : stableStatus ("snapmirrored", "transferring") = false))⟩

/-- Controller behaviour whose relationship state is never snapmirrored
at any observation. -/
def updateEnvNeverSettled : UpdateEnv :=
  { records := [{ uuid := "u1", state := "broken_off" }]
    postOk := true
    postErrMsg := ""
    statusSeq := fun _ => ("broken_off", "none") }

/-- C9, counterexample: the claim quantifies over every update variant,
but na_dbbackup_v2.update_snapmirror issues the transfer POST without any
state check: on a controller whose observed state is never snapmirrored
the POST is still sent. -/
theorem update_v2_posts_without_state_check :
    (∀ k, (updateEnvNeverSettled.statusSeq k).1 ≠ "snapmirrored")
    ∧ Req.postTransfer "u1" ∈ (update_snapmirror_v2 updateEnvNeverSettled).2.2 := by
  refine ⟨fun k => (by decide : ("broken_off" : String) ≠ "snapmirrored"), by decide⟩

/-- Environment for the update_snapmirror of the netapp_ontap scripts
(base, v3 and v7 are identical): whether a relationship matching the
source path was found, its uuid, and the state read from its detail. -/
structure UpdateEnv7 where
  found : Bool
  uuid : String
  state : String

/-- Message printed when the mirror is not in the snapmirrored state. -/
def transferring_msg (s : String) : String :=
  "Mirror is already Transferring or Unhealthy.  Mirror State: " ++ s

/-- Message printed after a successfully initiated update transfer. -/
def update_initiated_msg : String :=
  "Oracle DB Backup Snapmirror Update Successfully Initiated"

/-- na_oracle_dbbackup_v7.update_snapmirror (same code in the base script
and v3): read the relationship detail and POST a transfer only when its
state is snapmirrored, otherwise report the mirror as transferring or
unhealthy without issuing anything. -/
def update_snapmirror_v7 (env : UpdateEnv7) : String × List Req :=
  if env.found then
    if env.state == "snapmirrored" then
      (update_initiated_msg,
        [Req.getRelationships, Req.getRelState env.uuid, Req.postTransfer env.uuid])
    else
      (transferring_msg env.state, [Req.getRelationships, Req.getRelState env.uuid])
  else ("", [Req.getRelationships])

/-- C9 (amended to the netapp_ontap update variants, which check state):
the v7 update posts a transfer only when the observed relationship state
is snapmirrored; in every other state it posts nothing and reports the
mirror as transferring or unhealthy. -/
theorem update_v7_settled_only (env : UpdateEnv7) :
    (∀ u, Req.postTransfer u ∈ (update_snapmirror_v7 env).2 →
      env.state = "snapmirrored")
    ∧ (env.found = true → env.state ≠ "snapmirrored" →
        (update_snapmirror_v7 env).1 = transferring_msg env.state
        ∧ ∀ u, Req.postTransfer u ∉ (update_snapmirror_v7 env).2) := by
  constructor
  · intro u hmem
    unfold update_snapmirror_v7 at hmem
    by_cases hf : env.found = true
    · rw [if_pos hf] at hmem
      by_cases hs : (env.state == "snapmirrored") = true
      · exact eq_of_beq hs
      · rw [if_neg hs] at hmem
        rcases List.mem_cons.mp hmem with h | h
        · exact Req.noConfusion h
        · rcases List.mem_cons.mp h with h | h
          · exact Req.noConfusion h
          · simp at h
    · rw [if_neg hf] at hmem
      rcases List.mem_cons.mp hmem with h | h
      · exact Req.noConfusion h
      · simp at h
  · intro hf hs
    unfold update_snapmirror_v7
    rw [if_pos hf, if_neg (by simpa using hs)]
    refine ⟨rfl, fun u hmem => ?_⟩
    rcases List.mem_cons.mp hmem with h | h
    · exact Req.noConfusion h
    · rcases List.mem_cons.mp h with h | h
      · exact Req.noConfusion h
      · simp at h

/-- A relationship detail observed mid-transfer. -/
def updateEnv7Busy : UpdateEnv7 :=
  { found := true, uuid := "u1", state := "transferring" }

/-- C9, witness: on a relationship observed mid-transfer the v7 update
reports the transferring-or-unhealthy message and posts nothing. -/
theorem update_v7_settled_only_witness :
    (update_snapmirror_v7 updateEnv7Busy).1 = transferring_msg "transferring"
    ∧ ∀ u, Req.postTransfer u ∉ (update_snapmirror_v7 updateEnv7Busy).2 :=
  (update_v7_settled_only updateEnv7Busy).2 rfl (by decide)

/-- A LUN as the clone scripts read it: path name, serial number, and
online status. -/
structure LunRec where
  name : String
  serial : String
  online : Bool
deriving DecidableEq, Repr

/-- Controller-side state of the LUN world: the LUN collection and the
existing (LUN path, initiator group) mappings. -/
structure CState where
  luns : List LunRec
  maps : List (String × String)
deriving DecidableEq, Repr

/-- Requests issued by the clone scripts against the controller. -/
inductive LReq where
  | getLun : String → LReq
  | patchOnlineState : String → Bool → LReq
  | patchSerial : String → String → LReq
  | getMaps : String → String → LReq
  | createMap : String → String → LReq
  | postCloneVolume : String → String → LReq
deriving DecidableEq, Repr

/-- Read a LUN by path from the controller state. -/
def lookupLun (st : CState) (n : String) : Option LunRec :=
  st.luns.find? (fun l => l.name == n)

/-- Apply a PATCH to the LUN with the given path. -/
def setLun (st : CState) (n : String) (f : LunRec → LunRec) : CState :=
  { st with luns := st.luns.map (fun l => if l.name == n then f l else l) }

theorem find_map_set (ls : List LunRec) (n : String) (f : LunRec → LunRec)
    (hf : ∀ l, (f l).name = l.name) :
    (ls.map (fun l => if l.name == n then f l else l)).find? (fun l => l.name == n)
      = (ls.find? (fun l => l.name == n)).map f := by
  induction ls with
  | nil => rfl
  | cons a ls ih =>
    by_cases ha : (a.name == n) = true
    · have hfa : ((f a).name == n) = true := by rw [hf a]; exact ha
      rw [List.map_cons, if_pos ha, List.find?_cons, List.find?_cons, hfa, ha]
      rfl
    · have hfa : (a.name == n) = false := by
        rcases hb : (a.name == n) with _ | _
        · rfl
        · exact absurd hb ha
      rw [List.map_cons, if_neg ha, List.find?_cons, List.find?_cons, hfa]
      exact ih

theorem lookupLun_setLun (st : CState) (n : String) (f : LunRec → LunRec)
    (hf : ∀ l, (f l).name = l.name) :
    lookupLun (setLun st n f) n = (lookupLun st n).map f :=
  find_map_set st.luns n f hf

/-- The per-igroup mapping loop at the end of v3's clone_lun body: for
each requested initiator group, POST a LunMap unconditionally; the
controller rejects a duplicate, which aborts the operation. -/
def post_lun_maps (n : String) : List String → CState → Bool × CState × List LReq
  | [], st => (true, st, [])
  | g :: gs, st =>
    if st.maps.contains (n, g) then (false, st, [LReq.createMap n g])
    else
      let r := post_lun_maps n gs { st with maps := (n, g) :: st.maps }
      (r.1, r.2.1, LReq.createMap n g :: r.2.2)

theorem post_lun_maps_luns (n : String) (gs : List String) (st : CState) :
    (post_lun_maps n gs st).2.1.luns = st.luns := by
  induction gs generalizing st with
  | nil => rfl
  | cons g gs ih =>
    unfold post_lun_maps
    by_cases hc : st.maps.contains (n, g) = true
    · rw [if_pos hc]
    · rw [if_neg hc]
      exact ih _

/-- The state after v3's identity-remapping PATCH sequence on one clone
LUN: set offline, overwrite the serial with the parent serial, set back
online. -/
def offline_then_rewrite (ps n : String) (st : CState) : CState :=
  setLun (setLun (setLun st n (fun l => { l with online := false })) n
    (fun l => { l with serial := ps })) n (fun l => { l with online := true })

/-- The body of v3's clone-LUN loop for one clone LUN: refresh, PATCH
offline, refresh, PATCH the serial to the parent serial (the controller
accepts a serial write only on an offline LUN), refresh, PATCH online,
refresh, then map to each requested initiator group. -/
def process_clone_lun (igroups : List String) (parentSerial n : String)
    (st : CState) : Bool × CState × List LReq :=
  match lookupLun st n with
  | none => (false, st, [LReq.getLun n])
  | some _ =>
    match lookupLun (setLun st n (fun l => { l with online := false })) n with
    | none =>
      (false, setLun st n (fun l => { l with online := false }),
        [LReq.getLun n, LReq.patchOnlineState n false, LReq.getLun n])
    | some l1 =>
      if l1.online then
        (false, setLun st n (fun l => { l with online := false }),
          [LReq.getLun n, LReq.patchOnlineState n false, LReq.getLun n,
            LReq.patchSerial n parentSerial])
      else
        let m := post_lun_maps n igroups (offline_then_rewrite parentSerial n st)
        (m.1, m.2.1,
          [LReq.getLun n, LReq.patchOnlineState n false, LReq.getLun n,
            LReq.patchSerial n parentSerial, LReq.getLun n,
            LReq.patchOnlineState n true, LReq.getLun n] ++ m.2.2)

/-- C5: if v3's per-clone-LUN processing completes successfully, the
clone LUN re-read from the final controller state carries the parent
serial number recorded before any mutation, and is online. -/
theorem clone_lun_serial_remapped (igroups : List String) (ps n : String)
    (st : CState) (h : (process_clone_lun igroups ps n st).1 = true) :
    ∃ l, lookupLun (process_clone_lun igroups ps n st).2.1 n = some l
      ∧ l.serial = ps ∧ l.online = true := by
  unfold process_clone_lun at h ⊢
  rcases h0 : lookupLun st n with _ | l0
  · rw [h0] at h
    simp at h
  · rw [h0] at h
    dsimp only at h ⊢
    rcases h1 : lookupLun (setLun st n fun l => { l with online := false }) n with _ | l1
    · rw [h1] at h
      simp at h
    · rw [h1] at h
      dsimp only at h ⊢
      by_cases hon : l1.online = true
      · rw [if_pos hon] at h; simp at h
      · rw [if_neg hon] at h ⊢
        have hlook : lookupLun
            (post_lun_maps n igroups (offline_then_rewrite ps n st)).2.1 n
            = lookupLun (offline_then_rewrite ps n st) n := by
          unfold lookupLun
          rw [post_lun_maps_luns]
        rw [hlook]
        unfold offline_then_rewrite
        rw [lookupLun_setLun _ n (fun l => { l with online := true }) (fun l => rfl),
          lookupLun_setLun _ n (fun l => { l with serial := ps }) (fun l => rfl), h1]
        exact ⟨_, rfl, rfl, rfl⟩

/-- A controller state holding one online clone LUN and no mappings. -/
def stClone : CState :=
  { luns := [{ name := "/vol/CL/l1", serial := "SCLONE", online := true }]
    maps := [] }

/-- C5, witness: processing the clone LUN of `stClone` with parent serial
SPARENT succeeds and leaves it online with serial SPARENT. -/
theorem clone_lun_serial_remapped_witness :
    ∃ l, lookupLun (process_clone_lun ["ig1"] "SPARENT" "/vol/CL/l1" stClone).2.1
        "/vol/CL/l1" = some l
      ∧ l.serial = "SPARENT" ∧ l.online = true :=
  clone_lun_serial_remapped ["ig1"] "SPARENT" "/vol/CL/l1" stClone (by decide)

/-- C6: whenever v3's per-clone-LUN processing issues a serial-number
write, the request trace splits as pre ++ offline-PATCH ++ mid ++
serial-PATCH ++ post where no serial write occurs before the offline
PATCH and no online PATCH occurs before the serial write: the
offline-rewrite-online order holds. -/
theorem clone_lun_offline_during_serial_write (igroups : List String)
    (ps n : String) (st : CState)
    (h : LReq.patchSerial n ps ∈ (process_clone_lun igroups ps n st).2.2) :
    ∃ pre mid post,
      (process_clone_lun igroups ps n st).2.2
        = pre ++ LReq.patchOnlineState n false :: (mid ++ LReq.patchSerial n ps :: post)
      ∧ LReq.patchSerial n ps ∉ pre ∧ LReq.patchSerial n ps ∉ mid
      ∧ LReq.patchOnlineState n true ∉ pre ∧ LReq.patchOnlineState n true ∉ mid := by
  unfold process_clone_lun at h ⊢
  rcases h0 : lookupLun st n with _ | l0
  · rw [h0] at h
    simp at h
  · rw [h0] at h
    dsimp only at h ⊢
    rcases h1 : lookupLun (setLun st n fun l => { l with online := false }) n with _ | l1
    · rw [h1] at h
      simp at h
    · rw [h1] at h
      dsimp only at h ⊢
      by_cases hon : l1.online = true
      · rw [if_pos hon] at h ⊢
        refine ⟨[LReq.getLun n], [LReq.getLun n], [], by simp, ?_, ?_, ?_, ?_⟩ <;> simp
      · rw [if_neg hon] at h ⊢
        refine ⟨[LReq.getLun n], [LReq.getLun n],
          LReq.getLun n :: LReq.patchOnlineState n true :: LReq.getLun n ::
            (post_lun_maps n igroups (offline_then_rewrite ps n st)).2.2,
          by simp, ?_, ?_, ?_, ?_⟩ <;> simp

/-- C6, witness: on `stClone` the serial write is issued and the trace
decomposes as offline PATCH before serial PATCH before any online
PATCH. -/
theorem clone_lun_offline_during_serial_write_witness :
    ∃ pre mid post,
      (process_clone_lun ["ig1"] "SPARENT" "/vol/CL/l1" stClone).2.2
        = pre ++ LReq.patchOnlineState "/vol/CL/l1" false ::
            (mid ++ LReq.patchSerial "/vol/CL/l1" "SPARENT" :: post)
      ∧ LReq.patchSerial "/vol/CL/l1" "SPARENT" ∉ pre
      ∧ LReq.patchSerial "/vol/CL/l1" "SPARENT" ∉ mid
      ∧ LReq.patchOnlineState "/vol/CL/l1" true ∉ pre
      ∧ LReq.patchOnlineState "/vol/CL/l1" true ∉ mid :=
  clone_lun_offline_during_serial_write ["ig1"] "SPARENT" "/vol/CL/l1" stClone
    (by decide)

/-- The lazy collection object that LunMap.get_collection hands to
lun_clone_test_v1: a generator that, were it iterated, would yield the
matching mapping records.  It issues no request at creation time. -/
structure LazyCollection where
  records : List (String × String)

/-- Python truthiness of a generator object: a generator is truthy
whether or not iterating it would yield anything, so this is constantly
true and independent of `records`. -/
def LazyCollection.truthy (_ : LazyCollection) : Bool := true

/-- The mapping step of lun_clone_test_v1.clone_volume_and_manage_lun as
written: bind the generator returned by LunMap.get_collection (no request
issued, nothing iterated), then `if not mappings:` tests the truthiness
of the generator object itself, which is always true, so the create
branch is never taken: no existence read and no create POST is ever
issued, and the state is unchanged. -/
def map_lun_v1_step (lunPath igroup : String) (st : CState) :
    CState × List LReq :=
  let mappings : LazyCollection :=
    { records := st.maps.filter (fun m => m.1 == lunPath && m.2 == igroup) }
  if mappings.truthy then (st, [])
  else ({ st with maps := (lunPath, igroup) :: st.maps },
    [LReq.createMap lunPath igroup])

/-- Number of mappings recorded for a (LUN path, initiator group) pair. -/
def countMaps (st : CState) (l g : String) : Nat :=
  (st.maps.filter (fun m => m.1 == l && m.2 == g)).length

/-- A controller state in which the clone LUN is already mapped to the
requested initiator group. -/
def stDupMap : CState :=
  { luns := [{ name := "/vol/CL/l1", serial := "SCLONE", online := true }]
    maps := [("/vol/CL/l1", "ig1")] }

/-- Recogniser for mapping-existence reads, used to state that a trace
contains no such read. -/
def isGetMaps : LReq → Bool
  | LReq.getMaps _ _ => true
  | _ => false

/-- C7, code bug: neither mapping-creation implementation behaves as the
claim (and the comments in lun_clone_test_v1 itself) intend.  The v1-test
mapping step is a no-op for every pair and state: its `if not mappings`
guard tests the truthiness of the never-iterated generator object, which
is always true, so no existence read and no create is ever issued — and
on `stClone` (no existing mapping) two invocations still leave zero
mappings where the claim expects exactly one.  The v3 clone_lun mapping
step, on `stDupMap` (mapping already present), issues the create
unconditionally with no existence read and the duplicate create fails
the operation instead of succeeding without error. -/
theorem lun_map_creation_never_checked :
    (∀ l g st, map_lun_v1_step l g st = (st, []))
    ∧ countMaps (map_lun_v1_step "/vol/CL/l1" "ig1"
        (map_lun_v1_step "/vol/CL/l1" "ig1" stClone).1).1 "/vol/CL/l1" "ig1" = 0
    ∧ (process_clone_lun ["ig1"] "SPARENT" "/vol/CL/l1" stDupMap).1 = false
    ∧ LReq.createMap "/vol/CL/l1" "ig1" ∈
        (process_clone_lun ["ig1"] "SPARENT" "/vol/CL/l1" stDupMap).2.2
    ∧ (process_clone_lun ["ig1"] "SPARENT" "/vol/CL/l1" stDupMap).2.2.all
        (fun r => !(isGetMaps r)) = true :=
  ⟨fun l g st => rfl, by decide, by decide, by decide, by decide⟩

/-- Host-side and controller requests issued by v7's clone_lun. -/
inductive HReq where
  | breakRel : String → HReq
  | rescan : HReq
  | multipath : HReq
  | mount : HReq
deriving DecidableEq, Repr

/-- Environment for v7's clone_lun: the HTTP status the break POST gets
for each volume and whether each host-side command succeeds while that
volume is processed. -/
structure V7Env where
  breakStatus : String → Nat
  rescanOk : String → Bool
  multipathOk : String → Bool
  mountOk : String → Bool

/-- na_oracle_dbbackup_v7.clone_lun: per volume, POST the snapmirror
break; a non-200 response prints an error and continues with the next
volume; a host-command failure raises and aborts the remaining volumes
(the whole loop sits in one try block). -/
def clone_lun_v7 (env : V7Env) : List String → List HReq
  | [] => []
  | v :: vs =>
    if env.breakStatus v == 200 then
      if env.rescanOk v then
        if env.multipathOk v then
          if env.mountOk v then
            HReq.breakRel v :: HReq.rescan :: HReq.multipath :: HReq.mount ::
              clone_lun_v7 env vs
          else [HReq.breakRel v, HReq.rescan, HReq.multipath, HReq.mount]
        else [HReq.breakRel v, HReq.rescan, HReq.multipath]
      else [HReq.breakRel v, HReq.rescan]
    else HReq.breakRel v :: clone_lun_v7 env vs

/-- Environment for v3's clone_lun: per parent volume, whether the clone
volume POST is accepted, and the serial the controller assigns to each
newly created clone LUN. -/
structure V3Env where
  clonePostOk : String → Bool
  cloneSerial : String → String

/-- Volume path root used by the LUN collection filters of v3 (`/vol/`
followed by the volume name and a trailing glob). -/
def volRoot (vol : String) : String := "/vol/" ++ vol

/-- The LUN collection query of v3's clone_lun: online LUNs whose path
starts with the volume root. -/
def lunsUnderVol (st : CState) (vol : String) : List LunRec :=
  st.luns.filter (fun l => (volRoot vol).isPrefixOf l.name && l.online)

/-- The clone-volume POST of v3's clone_lun: on success the controller
creates the clone volume and, for each LUN of the parent, a clone LUN
with a fresh serial under the clone volume path. -/
def clone_volume_post (env : V3Env) (cloneName vol : String) (st : CState) :
    Bool × CState :=
  if env.clonePostOk vol then
    (true, { st with luns := st.luns ++ (lunsUnderVol st vol).map (fun l =>
      { name := volRoot cloneName ++ l.name.drop (volRoot vol).length,
        serial := env.cloneSerial l.name, online := true }) })
  else (false, st)

/-- The inner loop of v3's clone_lun over the clone LUN collection: each
clone LUN is processed in turn and a failure aborts the rest. -/
def process_clone_luns (igroups : List String) (ps : String) :
    List LunRec → CState → Bool × CState × List LReq
  | [], st => (true, st, [])
  | c :: cs, st =>
    let r := process_clone_lun igroups ps c.name st
    if r.1 then
      let r2 := process_clone_luns igroups ps cs r.2.1
      (r2.1, r2.2.1, r.2.2 ++ r2.2.2)
    else (false, r.2.1, r.2.2)

/-- The parent-LUN loop of v3's clone_lun: re-read each parent LUN's
serial, then run the clone-LUN loop with it; a failure aborts the rest. -/
def process_parents (igroups : List String) (cloneName : String) :
    List LunRec → CState → Bool × CState × List LReq
  | [], st => (true, st, [])
  | p :: parents, st =>
    match lookupLun st p.name with
    | none => (false, st, [LReq.getLun p.name])
    | some pl =>
      let r := process_clone_luns igroups pl.serial (lunsUnderVol st cloneName) st
      if r.1 then
        let r2 := process_parents igroups cloneName parents r.2.1
        (r2.1, r2.2.1, LReq.getLun p.name :: (r.2.2 ++ r2.2.2))
      else (false, r.2.1, LReq.getLun p.name :: r.2.2)

/-- The per-volume body of v3's clone_lun: POST the clone volume, then
run the parent-LUN loop against the freshly created clone LUNs. -/
def process_vol_v3 (env : V3Env) (igroups : List String) (cloneName vol : String)
    (st : CState) : Bool × CState × List LReq :=
  let c := clone_volume_post env cloneName vol st
  if c.1 then
    let r := process_parents igroups cloneName (lunsUnderVol c.2 vol) c.2
    (r.1, r.2.1, LReq.postCloneVolume vol cloneName :: r.2.2)
  else (false, c.2, [LReq.postCloneVolume vol cloneName])

/-- na_oracle_dbbackup_v3.clone_lun over the requested volume list: the
whole loop runs inside a single try block, so the first failure aborts
the remaining volumes. -/
def clone_lun_v3 (env : V3Env) (igroups : List String) (cloneName : String) :
    List String → CState → Bool × CState × List LReq
  | [], st => (true, st, [])
  | v :: vs, st =>
    let r := process_vol_v3 env igroups cloneName v st
    if r.1 then
      let r2 := clone_lun_v3 env igroups cloneName vs r.2.1
      (r2.1, r2.2.1, r.2.2 ++ r2.2.2)
    else (false, r.2.1, r.2.2)

/-- A controller state with one online LUN under each of two parent
volumes and no mappings. -/
def stTwoVols : CState :=
  { luns := [{ name := "/vol/v1/l1", serial := "S1", online := true },
             { name := "/vol/v2/l1", serial := "S2", online := true }]
    maps := [] }

/-- An environment in which the clone-volume POST for the first volume is
rejected and every other POST succeeds. -/
def v3EnvFirstPostFails : V3Env :=
  { clonePostOk := fun v => v != "v1"
    cloneSerial := fun _ => "SNEW" }

/-- C8, counterexample: in v3's clone_lun a failure on the first volume
(its clone-create POST is rejected) aborts the whole invocation: the
trace is exactly the first POST, and the second volume's clone-create
POST never appears, so the later volume is not processed. -/
theorem clone_lun_v3_abort_on_failure :
    (clone_lun_v3 v3EnvFirstPostFails ["ig1"] "CL" ["v1", "v2"] stTwoVols).1 = false
    ∧ (clone_lun_v3 v3EnvFirstPostFails ["ig1"] "CL" ["v1", "v2"] stTwoVols).2.2
        = [LReq.postCloneVolume "v1" "CL"]
    ∧ LReq.postCloneVolume "v2" "CL" ∉
        (clone_lun_v3 v3EnvFirstPostFails ["ig1"] "CL" ["v1", "v2"] stTwoVols).2.2 :=
  ⟨by decide, by decide, by decide⟩

/-- C8 (amended to v7's clone_lun, whose break failures are per-volume):
when the host-side commands succeed, every volume in the list has its
break request issued, regardless of break failures on other volumes (a
non-200 break response only skips that volume's host-side steps). -/
theorem clone_lun_v7_break_failure_continues (env : V7Env) (vols : List String)
    (hres : ∀ v, env.rescanOk v = true) (hmp : ∀ v, env.multipathOk v = true)
    (hmt : ∀ v, env.mountOk v = true) :
    ∀ v ∈ vols, HReq.breakRel v ∈ clone_lun_v7 env vols := by
  induction vols with
  | nil => intro v hv; simp at hv
  | cons w vs ih =>
    intro v hv
    unfold clone_lun_v7
    by_cases hb : (env.breakStatus w == 200) = true
    · rw [if_pos hb, if_pos (hres w), if_pos (hmp w), if_pos (hmt w)]
      rcases List.mem_cons.mp hv with rfl | hv2
      · exact List.mem_cons_self _ _
      · exact List.mem_cons_of_mem _ (List.mem_cons_of_mem _
          (List.mem_cons_of_mem _ (List.mem_cons_of_mem _ (ih v hv2))))
    · rw [if_neg hb]
      rcases List.mem_cons.mp hv with rfl | hv2
      · exact List.mem_cons_self _ _
      · exact List.mem_cons_of_mem _ (ih v hv2)

/-- An environment in which the break POST fails (HTTP 500) for the first
volume only and every host-side command succeeds. -/
def v7EnvFirstBreakFails : V7Env :=
  { breakStatus := fun v => if v == "v1" then 500 else 200
    rescanOk := fun _ => true
    multipathOk := fun _ => true
    mountOk := fun _ => true }

/-- C8, witness: with the first volume's break failing, the second
volume's break request is still issued by v7's clone_lun. -/
theorem clone_lun_v7_break_failure_continues_witness :
    HReq.breakRel "v2" ∈ clone_lun_v7 v7EnvFirstBreakFails ["v1", "v2"] :=
  clone_lun_v7_break_failure_continues v7EnvFirstBreakFails ["v1", "v2"]
    (fun _ => rfl) (fun _ => rfl) (fun _ => rfl) "v2" (by decide)

/-- A volume as delete_clone reads it: name and the clone.is_flexclone
flag. -/
structure VolumeRec where
  name : String
  isFlexclone : Bool
deriving DecidableEq, Repr

/-- The volume-level requests issued by delete_clone. -/
inductive VReq where
  | deleteVolume : String → VReq
deriving DecidableEq, Repr

/-- The message delete_clone prints for a non-clone volume. -/
def not_a_clone_msg : String := "Failed: Selected Volume is not a Clone"

/-- Environment for delete_clone: the volume resolved by uuid and whether
the controller accepts the delete. -/
structure DeleteEnv where
  vol : VolumeRec
  deleteOk : Bool

/-- na_oracle_dbbackup_v7.delete_clone (identical in the base script):
re-find the volume and, only when clone.is_flexclone is true, issue the
delete; otherwise print the failure message and issue nothing. -/
def delete_clone (env : DeleteEnv) : String × List VReq :=
  if env.vol.isFlexclone then
    (if env.deleteOk then
        "Clone Volume " ++ env.vol.name ++ " has been deleted Successfully."
      else "",
      [VReq.deleteVolume env.vol.name])
  else (not_a_clone_msg, [])

/-- C10: delete_clone issues a volume delete request exactly when the
resolved volume's clone.is_flexclone flag is true; when the flag is
false it reports the failure message and issues no request, so a
non-clone volume is never deleted through this operation. -/
theorem delete_clone_only_flexclone (env : DeleteEnv) :
    ((∃ u, VReq.deleteVolume u ∈ (delete_clone env).2) ↔ env.vol.isFlexclone = true)
    ∧ (env.vol.isFlexclone = false →
        (delete_clone env).1 = not_a_clone_msg ∧ (delete_clone env).2 = []) := by
  constructor
  · constructor
    · rintro ⟨u, hu⟩
      by_cases hf : env.vol.isFlexclone = true
      · exact hf
      · unfold delete_clone at hu
        rw [if_neg hf] at hu
        simp at hu
    · intro hf
      unfold delete_clone
      rw [if_pos hf]
      exact ⟨env.vol.name, List.mem_cons_self _ _⟩
  · intro hf
    unfold delete_clone
    rw [if_neg (by simp [hf])]
    exact ⟨rfl, rfl⟩

/-- A resolved volume that is not a flexclone. -/
def deleteEnvNotClone : DeleteEnv :=
  { vol := { name := "datavol1", isFlexclone := false }, deleteOk := true }

/-- C10, witness: on a non-clone volume delete_clone reports the failure
message and issues no request. -/
theorem delete_clone_only_flexclone_witness :
    (delete_clone deleteEnvNotClone).1 = not_a_clone_msg
    ∧ (delete_clone deleteEnvNotClone).2 = [] :=
  (delete_clone_only_flexclone deleteEnvNotClone).2 rfl

end NaDbbackup